import Mathlib

/-!
Verification development for the `predictor` repository.

The repository's two computation engines are embedded shallowly:

* `src/algorithms.py` — moving-average, exponential-smoothing and
  linear-regression forecasters, a trend analyzer, and an ensemble
  aggregator.  Python `float` arithmetic is modelled exactly by `ℚ`;
  Python's `round(x, 2)` (banker's rounding) is modelled by `round2`.
* `src/meihua.py` — the trigram table, the five-element relation engine,
  the time-method hexagram caster and the reading composer.  Python
  strings are modelled by `String`; Python `%` on a positive modulus
  agrees with `Int.emod`, so `%` on `ℤ` models it directly.

Randomness (the mutation-line die roll) is passed as an explicit `roll`
parameter; every embedded function is total, modelling the fact that the
corresponding Python code raises no exception on the stated domain.
-/

namespace Predictor

/-- Round-half-to-even of a rational to an integer, modelling Python's
built-in `round` on exactly-representable values. -/
def pyRound (q : ℚ) : ℤ :=
  let f := ⌊q⌋
  if q - f < 1/2 then f
  else if q - f > 1/2 then f + 1
  else if f % 2 = 0 then f else f + 1

/-- Python `round(x, 2)`: round to two decimal places. -/
def round2 (q : ℚ) : ℚ := (pyRound (q * 100) : ℚ) / 100

/-! ## `src/meihua.py` -/

/-- `get_gua_number` (src/meihua.py line 40): `((num - 1) % 8) + 1`. -/
def get_gua_number (num : ℤ) : ℤ := (num - 1) % 8 + 1

/-- `time_to_gua` (src/meihua.py line 45): upper from year+month+day,
lower from year+month+day+hour. -/
def time_to_gua (year month day hour : ℤ) : ℤ × ℤ :=
  (get_gua_number (year + month + day), get_gua_number (year + month + day + hour))

/-- The `五行` (element) column of the `BAGUA` table (src/meihua.py lines
11-20); `get_gua_details` of an unknown number yields `"未知"`. -/
def bagua_wuxing (n : ℤ) : String :=
  if n = 1 then "金" else if n = 2 then "金"
  else if n = 3 then "火"
  else if n = 4 then "木" else if n = 5 then "木"
  else if n = 6 then "水"
  else if n = 7 then "土" else if n = 8 then "土"
  else "未知"

/-- The `name` column of the `BAGUA` table (src/meihua.py lines 11-20). -/
def bagua_name (n : ℤ) : String :=
  if n = 1 then "乾" else if n = 2 then "兑"
  else if n = 3 then "离"
  else if n = 4 then "震" else if n = 5 then "巽"
  else if n = 6 then "坎"
  else if n = 7 then "艮" else if n = 8 then "坤"
  else "未知"

/-- The `生` (generation) edge of `WUXING_RELATIONS` (src/meihua.py lines
23-29); `none` models a key miss in the Python dict chain. -/
def wuxing_sheng : String → Option String
  | "木" => some "火"
  | "火" => some "土"
  | "土" => some "金"
  | "金" => some "水"
  | "水" => some "木"
  | _ => none

/-- The `克` (restraint) edge of `WUXING_RELATIONS` (src/meihua.py lines
23-29). -/
def wuxing_ke : String → Option String
  | "木" => some "土"
  | "火" => some "金"
  | "土" => some "水"
  | "金" => some "木"
  | "水" => some "火"
  | _ => none

/-- Result dict of `analyze_wuxing`: keys `关系`, `吉凶`, `说明`. -/
structure WuxingAnalysis where
  guanxi : String
  jixiong : String
  shuoming : String
deriving DecidableEq, Repr

/-- `analyze_wuxing` (src/meihua.py lines 72-92): the ordered if-chain
classifying an ordered pair of elements. -/
def analyze_wuxing (w1 w2 : String) : WuxingAnalysis :=
  if w1 = w2 then ⟨"比和", "平", "五行相同，互相助益"⟩
  else if wuxing_sheng w1 = some w2 then
    ⟨"相生", "吉", w1 ++ "生" ++ w2 ++ "，主卦生助用神"⟩
  else if wuxing_ke w1 = some w2 then
    ⟨"相克", "凶", w1 ++ "克" ++ w2 ++ "，主卦克制用神"⟩
  else if wuxing_sheng w2 = some w1 then
    ⟨"相生", "吉", w2 ++ "生" ++ w1 ++ "，用神生助主卦"⟩
  else if wuxing_ke w2 = some w1 then
    ⟨"相克", "凶", w2 ++ "克" ++ w1 ++ "，用神克制主卦"⟩
  else ⟨"无关", "平", "五行无关"⟩

/-- The five elements, the keys of `WUXING_RELATIONS`. -/
def wuxingElems : List String := ["木", "火", "土", "金", "水"]

/-- Result dict of `_generate_prediction`: keys `卦象结果`, `解释`,
`建议`, `注意`. -/
structure Prediction where
  guaxiangJieguo : String
  jieshi : String
  jianyi : String
  zhuyi : String
deriving DecidableEq, Repr

/-- `_generate_prediction` (src/meihua.py lines 195-226): tier, narrative
and advice from the favorability field of the element analysis, plus the
mutation trigram's name in the narrative. -/
def generate_prediction (wa : WuxingAnalysis) (bianName : String) : Prediction :=
  let jixiong := wa.jixiong
  let jieguo := if jixiong = "吉" then "大吉" else if jixiong = "凶" then "凶" else "平"
  let jieshiBase :=
    if jixiong = "吉" then "五行相生，主卦吉利，事态向好发展"
    else if jixiong = "凶" then "五行相克，主卦不利，事态可能遇阻"
    else "五行平和，事态平稳发展"
  let jianyi :=
    if jixiong = "吉" then "宜把握时机，积极行动"
    else if jixiong = "凶" then "宜静待时机，谨慎行事"
    else "宜稳扎稳打，循序渐进"
  { guaxiangJieguo := jieguo,
    jieshi := jieshiBase ++ "。变卦" ++ bianName ++ "，需关注变化。",
    jianyi := jianyi,
    zhuyi := "易经预测仅供参考，人生仍需努力" }

/-- Membership test `k in question` for Python strings, via `splitOn`. -/
def containsKeyword (question k : String) : Bool :=
  (question.splitOn k).length > 1

/-- The target-spirit (`用神`) label selected by the keyword scan in
`predict` (src/meihua.py lines 151-162). -/
def yongshen_label (question : String) : String :=
  if ["财", "钱", "收入", "盈利"].any (containsKeyword question) then "财"
  else if ["官", "升职", "事业"].any (containsKeyword question) then "官"
  else if ["学", "考", "试"].any (containsKeyword question) then "印"
  else "用神"

/-- The target-spirit element selected by the keyword scan in `predict`
(src/meihua.py lines 151-162); the default is the upper trigram's own
element. -/
def yongshen_wuxing_of (question shangWuxing : String) : String :=
  if ["财", "钱", "收入", "盈利"].any (containsKeyword question) then "土"
  else if ["官", "升职", "事业"].any (containsKeyword question) then "金"
  else if ["学", "考", "试"].any (containsKeyword question) then "火"
  else shangWuxing

/-- The fields of the `predict` result dict (src/meihua.py lines 165-190)
that the claims concern; nested detail dicts are reachable from the
trigram numbers through `bagua_wuxing`/`bagua_name`. -/
structure MeihuaResult where
  question : String
  shang : ℤ
  xia : ℤ
  bian : ℤ
  wuxingAnalysis : WuxingAnalysis
  yongshen : String
  yongshenWuxing : String
  prediction : Prediction
deriving Repr

/-- `predict` with `method="time"` (src/meihua.py lines 107-192); the
mutation-line die roll `random.randint(1, 6)` is the explicit `roll`
argument. -/
def predictTime (question : String) (year month day hour roll : ℤ) : MeihuaResult :=
  let sx := time_to_gua year month day hour
  let shang := sx.1
  let xia := sx.2
  let bian := get_gua_number (shang + xia + roll)
  let wa := analyze_wuxing (bagua_wuxing shang) (bagua_wuxing xia)
  { question := question,
    shang := shang, xia := xia, bian := bian,
    wuxingAnalysis := wa,
    yongshen := yongshen_label question,
    yongshenWuxing := yongshen_wuxing_of question (bagua_wuxing shang),
    prediction := generate_prediction wa (bagua_name bian) }

/-! ## `src/algorithms.py` -/

/-- `MovingAverage.predict` (src/algorithms.py lines 14-19): mean of the
whole series when it is shorter than the window, else the mean of the
last `window` values, repeated `steps` times.  (`data[-window:]` equals
`drop (length - window)` whenever `0 < window`, which holds at every use
site: the constructed window is 5.) -/
def maPredict (window : ℕ) (data : List ℚ) (steps : ℕ) : List ℚ :=
  if data.length < window then
    List.replicate steps (data.sum / (data.length : ℚ))
  else
    List.replicate steps ((data.drop (data.length - window)).sum / (window : ℚ))

/-- One step of the exponential-smoothing recurrence
(src/algorithms.py line 34). -/
def emaStep (alpha acc v : ℚ) : ℚ := alpha * v + (1 - alpha) * acc

/-- `ExponentialSmoothing.predict` (src/algorithms.py lines 28-36):
fold the recurrence from the first observation, repeat the final
smoothed value `steps` times; an empty series yields zeros. -/
def emaPredict (alpha : ℚ) (data : List ℚ) (steps : ℕ) : List ℚ :=
  match data with
  | [] => List.replicate steps 0
  | x :: rest => List.replicate steps (rest.foldl (emaStep alpha) x)

/-- The `slope`/`intercept` state of `LinearRegression`. -/
structure LinFit where
  slope : ℚ
  intercept : ℚ
deriving DecidableEq, Repr

/-- The `numerator` local of `LinearRegression.fit` (src/algorithms.py
line 56), with `x_mean = (n-1)/2` and `y_mean = sum/n` inlined. -/
def linNumerator (data : List ℚ) : ℚ :=
  ((List.range data.length).map (fun (i : ℕ) =>
    ((i : ℚ) - ((data.length : ℚ) - 1) / 2) *
      (data.getD i 0 - data.sum / (data.length : ℚ)))).sum

/-- The `denominator` local of `LinearRegression.fit` (src/algorithms.py
line 57). -/
def linDenominator (data : List ℚ) : ℚ :=
  ((List.range data.length).map (fun (i : ℕ) =>
    ((i : ℚ) - ((data.length : ℚ) - 1) / 2) ^ 2)).sum

/-- `LinearRegression.fit` (src/algorithms.py lines 46-64): ordinary
least squares of value against index 0..n-1, with the `n < 2` and
zero-denominator fallbacks. -/
def linFit (data : List ℚ) : LinFit :=
  if data.length < 2 then
    { slope := 0, intercept := data.sum / (data.length : ℚ) }
  else
    let slope := if linDenominator data = 0 then 0 else linNumerator data / linDenominator data
    { slope := slope,
      intercept := data.sum / (data.length : ℚ) - slope * (((data.length : ℚ) - 1) / 2) }

/-- `LinearRegression.predict` (src/algorithms.py lines 66-69): refit,
then return `slope * (n + i) + intercept` for `i` in `1..steps`. -/
def linPredict (data : List ℚ) (steps : ℕ) : List ℚ :=
  let f := linFit data
  let n := data.length
  (List.range steps).map (fun (j : ℕ) => f.slope * ((n : ℚ) + (j : ℚ) + 1) + f.intercept)

/-- The `trend`/`strength` fields of the `TrendAnalysis.analyze` result
dict (src/algorithms.py lines 109-115).  The dict's remaining fields
(`avg_change_rate`, `volatility`, `confidence`) are mentioned by no
claim and `volatility` needs `math.sqrt`, so they are not modelled. -/
structure TrendResult where
  trend : String
  strength : ℚ
deriving DecidableEq, Repr

/-- The valid per-step percentage changes (src/algorithms.py lines
79-82): `(data[i] - data[i-1]) / data[i-1]` for `i` in `1..n-1`,
skipping steps whose previous value is zero. -/
def pctChanges (data : List ℚ) : List ℚ :=
  (data.zip data.tail).filterMap fun p =>
    if p.1 ≠ 0 then some ((p.2 - p.1) / p.1) else none

/-- `TrendAnalysis.analyze` (src/algorithms.py lines 75-115), restricted
to the `trend` and `strength` fields; the returned strength is
`round(strength, 2)`. -/
def trendAnalyze (data : List ℚ) : TrendResult :=
  if data.length < 2 then { trend := "unknown", strength := 0 }
  else
    let changes := pctChanges data
    if changes.isEmpty then { trend := "unknown", strength := 0 }
    else
      let m := changes.sum / (changes.length : ℚ)
      if m > 1/20 then { trend := "上涨", strength := round2 (min (|m| * 10) 1) }
      else if m < -(1/20) then { trend := "下跌", strength := round2 (min (|m| * 10) 1) }
      else { trend := "震荡", strength := round2 (1/2) }

/-- The fixed ensemble weights (src/algorithms.py line 145). -/
def wMa : ℚ := 3/10
/-- The fixed ensemble weights (src/algorithms.py line 145). -/
def wEma : ℚ := 35/100
/-- The fixed ensemble weights (src/algorithms.py line 145). -/
def wLin : ℚ := 35/100

/-- The weighted-average loop of `EnsemblePredictor.predict`
(src/algorithms.py lines 144-152).  A slot holds `some v` when the model
produced the number `v` (`isinstance(predictions[k], (int, float))`) and
`none` when its slot holds an error string instead. -/
def combine (pMa pEma pLin : Option ℚ) : ℚ :=
  let step : ℚ × ℚ → Option ℚ × ℚ → ℚ × ℚ := fun a s =>
    match s.1 with
    | some v => (a.1 + v * s.2, a.2 + s.2)
    | none => a
  let acc := [(pMa, wMa), (pEma, wEma), (pLin, wLin)].foldl step (0, 0)
  if 0 < acc.2 then acc.1 / acc.2 else 0

/-- The result dict of `EnsemblePredictor.predict`.  The insufficient-data
branch (line 131) carries keys `error` and `results`; the normal branch
(lines 154-159) carries `trend`, `predictions`, `ensemble`, `steps`.
Absent keys are `none`. -/
structure EnsembleResult where
  error : Option String
  results : Option (List (String × Option ℚ))
  trend : Option TrendResult
  predictions : Option (List (String × Option ℚ))
  ensemble : Option ℚ
  steps : Option ℕ
deriving Repr

/-- `EnsemblePredictor.predict` (src/algorithms.py lines 129-159).
`pred[0]` is modelled by `head?`: with `steps = 0` every forecaster
returns `[]`, the `IndexError` is caught and the slot holds the error
string, i.e. `none`; each forecaster is total on `length ≥ 3`, so no
other exception arises. -/
def ensemblePredict (data : List ℚ) (steps : ℕ) : EnsembleResult :=
  if data.length < 3 then
    { error := some "数据量不足，需要至少3个数据点", results := some [],
      trend := none, predictions := none, ensemble := none, steps := none }
  else
    let t := trendAnalyze data
    let pMa := (maPredict 5 data steps).head?
    let pEma := (emaPredict (3/10) data steps).head?
    let pLin := (linPredict data steps).head?
    { error := none, results := none,
      trend := some t,
      predictions := some [("ma", pMa), ("ema", pEma), ("linear", pLin)],
      ensemble := some (round2 (combine pMa pEma pLin)),
      steps := some steps }

/-- The numeric slots paired with their weights, in model order: the
reference formulation of "the models that actually produced a numeric
value" used to state the ensemble claims. -/
def numericSlots (pMa pEma pLin : Option ℚ) : List (ℚ × ℚ) :=
  [(pMa, wMa), (pEma, wEma), (pLin, wLin)].filterMap
    fun s => s.1.map (fun v => (v, s.2))

/-! ## Helper lemmas -/

/-- A sum of a mapped `List.range` is the corresponding `Finset.range`
sum. -/
theorem sum_list_range (n : ℕ) (f : ℕ → ℚ) :
    ((List.range n).map f).sum = ∑ i in Finset.range n, f i := by
  induction n with
  | zero => simp
  | succ k ih =>
      rw [List.range_succ, List.map_append, List.sum_append, Finset.sum_range_succ, ih]
      simp

/-- Indexing a mapped `List.range` inside its bounds. -/
theorem getD_range_map (g : ℕ → ℚ) (n i : ℕ) (h : i < n) :
    ((List.range n).map g).getD i 0 = g i := by
  rw [List.getD_eq_getElem?_getD, List.getElem?_map, List.getElem?_range h]
  rfl

/-- Gauss sum over `Finset.range`, in `ℚ`. -/
theorem sum_range_cast (n : ℕ) :
    ∑ i in Finset.range n, (i : ℚ) = n * (n - 1) / 2 := by
  induction n with
  | zero => simp
  | succ k ih => rw [Finset.sum_range_succ, ih]; push_cast; ring

/-- Sum of squares over `Finset.range`, in `ℚ`. -/
theorem sum_range_cast_sq (n : ℕ) :
    ∑ i in Finset.range n, (i : ℚ) ^ 2 = n * (n - 1) * (2 * n - 1) / 6 := by
  induction n with
  | zero => simp
  | succ k ih => rw [Finset.sum_range_succ, ih]; push_cast; ring

/-- Sum of squared deviations of `0..n-1` from their mean `(n-1)/2`. -/
theorem sum_sq_dev (n : ℕ) :
    ∑ i in Finset.range n, ((i : ℚ) - ((n : ℚ) - 1) / 2) ^ 2 =
      (n : ℚ) * ((n : ℚ) - 1) * ((n : ℚ) + 1) / 12 := by
  have hterm : ∀ i ∈ Finset.range n, ((i : ℚ) - ((n : ℚ) - 1) / 2) ^ 2 =
      (i : ℚ) ^ 2 - ((n : ℚ) - 1) * (i : ℚ) + (((n : ℚ) - 1) / 2) ^ 2 :=
    fun i _ => by ring
  rw [Finset.sum_congr rfl hterm]
  simp only [Finset.sum_add_distrib, Finset.sum_sub_distrib, ← Finset.mul_sum,
    Finset.sum_const, Finset.card_range, nsmul_eq_mul, sum_range_cast, sum_range_cast_sq]
  ring

/-- The OLS denominator depends only on the length. -/
theorem linDenominator_closed (data : List ℚ) :
    linDenominator data =
      (data.length : ℚ) * ((data.length : ℚ) - 1) * ((data.length : ℚ) + 1) / 12 := by
  rw [linDenominator, sum_list_range, sum_sq_dev]

/-- The sum of an affine sequence `a + m*i`, `i = 0..n-1`. -/
theorem sum_affine (n : ℕ) (a m : ℚ) :
    ((List.range n).map (fun (i : ℕ) => a + m * (i : ℚ))).sum =
      (n : ℚ) * a + m * ((n : ℚ) * ((n : ℚ) - 1) / 2) := by
  rw [sum_list_range]
  simp only [Finset.sum_add_distrib, Finset.sum_const, Finset.card_range, nsmul_eq_mul,
    ← Finset.mul_sum, sum_range_cast]

/-- On exactly affine data the OLS numerator equals the slope `m` times
the denominator. -/
theorem linNumerator_affine (n : ℕ) (a m : ℚ) (hn : 1 ≤ n) :
    linNumerator ((List.range n).map (fun (i : ℕ) => a + m * (i : ℚ))) =
      m * ((n : ℚ) * ((n : ℚ) - 1) * ((n : ℚ) + 1) / 12) := by
  have hn0 : (n : ℚ) ≠ 0 := Nat.cast_ne_zero.mpr (by omega)
  rw [linNumerator]
  simp only [List.length_map, List.length_range]
  rw [sum_list_range]
  have hy : ((List.range n).map (fun (i : ℕ) => a + m * (i : ℚ))).sum / (n : ℚ) =
      a + m * (((n : ℚ) - 1) / 2) := by
    rw [sum_affine]
    field_simp
    ring
  have hterm : ∀ i ∈ Finset.range n,
      ((i : ℚ) - ((n : ℚ) - 1) / 2) *
        (((List.range n).map (fun (i : ℕ) => a + m * (i : ℚ))).getD i 0 -
          ((List.range n).map (fun (i : ℕ) => a + m * (i : ℚ))).sum / (n : ℚ)) =
      m * ((i : ℚ) - ((n : ℚ) - 1) / 2) ^ 2 := by
    intro i hi
    rw [getD_range_map _ _ _ (Finset.mem_range.mp hi), hy]
    ring
  rw [Finset.sum_congr rfl hterm, ← Finset.mul_sum, sum_sq_dev]

/-- `LinearRegression.fit` on exactly affine data of length at least 2
recovers the slope and intercept exactly. -/
theorem linFit_affine (n : ℕ) (a m : ℚ) (hn : 2 ≤ n) :
    linFit ((List.range n).map (fun (i : ℕ) => a + m * (i : ℚ))) = ⟨m, a⟩ := by
  have hn0 : (n : ℚ) ≠ 0 := Nat.cast_ne_zero.mpr (by omega)
  have hnq : (2 : ℚ) ≤ (n : ℚ) := by exact_mod_cast hn
  have hden : linDenominator ((List.range n).map (fun (i : ℕ) => a + m * (i : ℚ))) =
      (n : ℚ) * ((n : ℚ) - 1) * ((n : ℚ) + 1) / 12 := by
    rw [linDenominator_closed]
    simp only [List.length_map, List.length_range]
  have hdpos : 0 < (n : ℚ) * ((n : ℚ) - 1) * ((n : ℚ) + 1) / 12 := by
    apply div_pos _ (by norm_num)
    apply mul_pos (mul_pos (by linarith) (by linarith)) (by linarith)
  unfold linFit
  rw [if_neg (by simp only [List.length_map, List.length_range]; omega)]
  simp only [List.length_map, List.length_range]
  rw [hden, linNumerator_affine n a m (by omega), if_neg hdpos.ne',
    mul_div_cancel_right₀ m hdpos.ne']
  have hy : ((List.range n).map (fun (i : ℕ) => a + m * (i : ℚ))).sum / (n : ℚ) =
      a + m * (((n : ℚ) - 1) / 2) := by
    rw [sum_affine]
    field_simp
    ring
  rw [hy]
  congr 1
  ring

/-! ## Theorems -/

/-- C6: the element-relation classification is total and exclusive:
`analyze_wuxing X X` yields parity (`比和`) for every element `X`; over
all 25 ordered pairs of the 5 elements exactly one of the five branch
conditions (parity, generating, restraining, generated-by,
restrained-by) holds; and the fallback `无关` branch is never reached. -/
theorem C6_relation_total_exclusive :
    (∀ w ∈ wuxingElems, (analyze_wuxing w w).guanxi = "比和") ∧
    (∀ w1 ∈ wuxingElems, ∀ w2 ∈ wuxingElems,
      ((if w1 = w2 then 1 else 0) +
       (if wuxing_sheng w1 = some w2 then 1 else 0) +
       (if wuxing_ke w1 = some w2 then 1 else 0) +
       (if wuxing_sheng w2 = some w1 then 1 else 0) +
       (if wuxing_ke w2 = some w1 then 1 else 0) : ℕ) = 1) ∧
    (∀ w1 ∈ wuxingElems, ∀ w2 ∈ wuxingElems,
      (analyze_wuxing w1 w2).guanxi ≠ "无关") := by
  decide

/-- Concrete instance of `C6_relation_total_exclusive` at the pair
(木, 火). -/
theorem C6_relation_total_exclusive_witness :
    (analyze_wuxing "木" "木").guanxi = "比和" ∧
    (analyze_wuxing "木" "火").guanxi ≠ "无关" :=
  ⟨C6_relation_total_exclusive.1 "木" (by decide),
   C6_relation_total_exclusive.2.2 "木" (by decide) "火" (by decide)⟩

/-- C7: the trigram normalization `((n - 1) % 8) + 1` lands in `[1, 8]`
for every integer `n` and has period 8. -/
theorem C7_norm_range_periodic (n : ℤ) :
    1 ≤ get_gua_number n ∧ get_gua_number n ≤ 8 ∧
    get_gua_number (n + 8) = get_gua_number n := by
  unfold get_gua_number
  omega

/-- C8: time-method casting is the stated deterministic function of its
integer inputs, and year 2026, month 2, day 27, hour 10 yields upper
trigram 7 and lower trigram 1. -/
theorem C8_time_casting (year month day hour : ℤ) :
    time_to_gua year month day hour =
      (get_gua_number (year + month + day),
       get_gua_number (year + month + day + hour)) ∧
    time_to_gua 2026 2 27 10 = (7, 1) :=
  ⟨rfl, by decide⟩

/-- C10: the favorability verdict of the element-relation classification
is symmetric over the five elements, although the directional
explanation texts differ. -/
theorem C10_favorability_symmetric :
    ∀ w1 ∈ wuxingElems, ∀ w2 ∈ wuxingElems,
      (analyze_wuxing w1 w2).jixiong = (analyze_wuxing w2 w1).jixiong := by
  decide

/-- Concrete instance of `C10_favorability_symmetric` at the pair
(木, 火). -/
theorem C10_favorability_symmetric_witness :
    (analyze_wuxing "木" "火").jixiong = (analyze_wuxing "火" "木").jixiong :=
  C10_favorability_symmetric "木" (by decide) "火" (by decide)

/-- C3: for every cast and question, the verdict tier of the reading is
the favorability of the relation between the upper trigram's element and
the lower trigram's element (吉 → 大吉, 凶 → 凶, otherwise 平); the whole
verdict is independent of the question (hence of the keyword-selected
target-spirit element); and favorability is exactly the relation class:
吉 iff generating (相生), 凶 iff restraining (相克), 平 iff parity or
unrelated. -/
theorem C3_verdict_from_trigram_elements (question : String)
    (year month day hour roll : ℤ) :
    ((predictTime question year month day hour roll).prediction.guaxiangJieguo =
      (let rel := analyze_wuxing
        (bagua_wuxing (predictTime question year month day hour roll).shang)
        (bagua_wuxing (predictTime question year month day hour roll).xia)
       if rel.jixiong = "吉" then "大吉"
       else if rel.jixiong = "凶" then "凶" else "平")) ∧
    (∀ q2 : String,
      (predictTime q2 year month day hour roll).prediction =
        (predictTime question year month day hour roll).prediction) ∧
    (∀ w1 w2 : String,
      ((analyze_wuxing w1 w2).jixiong = "吉" ↔ (analyze_wuxing w1 w2).guanxi = "相生") ∧
      ((analyze_wuxing w1 w2).jixiong = "凶" ↔ (analyze_wuxing w1 w2).guanxi = "相克") ∧
      ((analyze_wuxing w1 w2).jixiong = "平" ↔
        ((analyze_wuxing w1 w2).guanxi = "比和" ∨ (analyze_wuxing w1 w2).guanxi = "无关"))) := by
  refine ⟨rfl, fun q2 => rfl, fun w1 w2 => ?_⟩
  unfold analyze_wuxing
  split_ifs <;> simp

/-- C4: the ensemble aggregator on a series of fewer than 3 points
returns the explicit insufficient-data dict whose prediction map is
empty; the embedded function is total, modelling that the Python branch
returns before any computation that could raise. -/
theorem C4_insufficient_data (data : List ℚ) (steps : ℕ)
    (h : data.length < 3) :
    ensemblePredict data steps =
      { error := some "数据量不足，需要至少3个数据点", results := some [],
        trend := none, predictions := none, ensemble := none, steps := none } := by
  unfold ensemblePredict
  rw [if_pos h]

/-- Concrete instance of `C4_insufficient_data` on the one-point series
`[1]`. -/
theorem C4_insufficient_data_witness :
    ensemblePredict [1] 1 =
      { error := some "数据量不足，需要至少3个数据点", results := some [],
        trend := none, predictions := none, ensemble := none, steps := none } :=
  C4_insufficient_data [1] 1 (by decide)

/-- C2 fails on the code: on `[10,12,11,13,15]` the exponential smoother
with alpha 0.3 returns 12.4828 (not ≈ 12.98), the fitted intercept is
10.0 (not ≈ 9.9), and the linear forecast at step 1 is 16.6 (not
≈ 15.4); each computed value is far outside any floating tolerance of
the claimed one. -/
theorem C2_worked_example_counterexample :
    emaPredict (3/10) [10, 12, 11, 13, 15] 1 = [31207/2500] ∧
    ¬ |(31207/2500 : ℚ) - 1298/100| ≤ 1/10 ∧
    (linFit [10, 12, 11, 13, 15]).intercept = 10 ∧
    ¬ |(10 : ℚ) - 99/10| ≤ 1/20 ∧
    linPredict [10, 12, 11, 13, 15] 1 = [83/5] ∧
    ¬ |(83/5 : ℚ) - 154/10| ≤ 1/2 := by
  refine ⟨by norm_num [emaPredict, emaStep], by rw [abs_le]; push_neg; norm_num,
    by norm_num [linFit, linNumerator, linDenominator, List.range_succ], by rw [abs_le]; push_neg; norm_num,
    by norm_num [linPredict, linFit, linNumerator, linDenominator, List.range_succ], by rw [abs_le]; push_neg; norm_num⟩

/-- C2 amended: on the series `[10,12,11,13,15]` with `steps = 1`, the
moving-average forecaster with window 5 returns 12.2, the
exponential-smoothing forecaster with alpha 0.3 returns 12.4828, and the
linear regressor fits slope 1.1 and intercept 10.0 and forecasts 16.6. -/
theorem C2_worked_example :
    maPredict 5 [10, 12, 11, 13, 15] 1 = [61/5] ∧
    emaPredict (3/10) [10, 12, 11, 13, 15] 1 = [31207/2500] ∧
    (linFit [10, 12, 11, 13, 15]).slope = 11/10 ∧
    (linFit [10, 12, 11, 13, 15]).intercept = 10 ∧
    linPredict [10, 12, 11, 13, 15] 1 = [83/5] := by
  refine ⟨by norm_num [maPredict], by norm_num [emaPredict, emaStep],
    by norm_num [linFit, linNumerator, linDenominator, List.range_succ], by norm_num [linFit, linNumerator, linDenominator, List.range_succ],
    by norm_num [linPredict, linFit, linNumerator, linDenominator, List.range_succ]⟩

/-- C1 fails on the code: on `[10,11,12,13]` (exact constant step
`m = 1`, `n = 4`, fitted slope 1 and intercept 10) the code's horizon-1
forecast is `slope*(n+1) + intercept = 15`, while the claimed formula
`slope*(n+i-1) + intercept` at `i = 1` gives `14 = last_value + m`. -/
theorem C1_claimed_formula_counterexample :
    linPredict [10, 11, 12, 13] 1 = [15] ∧
    (linFit [10, 11, 12, 13]).slope * (((4 : ℚ) + 1) - 1) +
      (linFit [10, 11, 12, 13]).intercept = 14 ∧
    (13 : ℚ) + 1 = 14 ∧ (15 : ℚ) ≠ 14 := by
  refine ⟨by norm_num [linPredict, linFit, linNumerator, linDenominator, List.range_succ],
    by norm_num [linFit, linNumerator, linDenominator, List.range_succ],
    by norm_num, by norm_num⟩

/-- C1 amended: on every non-empty series the forecast at 1-indexed
horizon `i` equals `slope*(n+i) + intercept` (one index beyond the
claimed `n+i-1`); slope 0 and intercept `mean(series)` when `n < 2`; and
on a series of length at least 2 with exact constant step `m` the
horizon-1 forecast equals `last_value + 2*m` (not `last_value + m`). -/
theorem C1_linear_forecast (data : List ℚ) (steps : ℕ) (h : data ≠ []) :
    (∀ i : ℕ, 1 ≤ i → i ≤ steps →
      (linPredict data steps).getD (i - 1) 0 =
        (linFit data).slope * ((data.length : ℚ) + (i : ℚ)) + (linFit data).intercept) ∧
    (data.length < 2 →
      (linFit data).slope = 0 ∧ (linFit data).intercept = data.sum / (data.length : ℚ)) ∧
    (∀ (a m : ℚ) (n : ℕ), 2 ≤ n →
      data = (List.range n).map (fun (i : ℕ) => a + m * (i : ℚ)) → 1 ≤ steps →
      (linPredict data steps).getD 0 0 = data.getD (n - 1) 0 + 2 * m) := by
  refine ⟨?_, ?_, ?_⟩
  · intro i h1 hs
    simp only [linPredict]
    rw [getD_range_map _ _ _ (by omega), Nat.cast_sub h1]
    push_cast
    ring
  · intro h2
    unfold linFit
    rw [if_pos h2]
    exact ⟨rfl, rfl⟩
  · intro a m n hn hdata hs
    subst hdata
    simp only [linPredict, linFit_affine n a m hn]
    rw [getD_range_map _ _ _ (by omega : 0 < steps),
      getD_range_map _ _ _ (by omega : n - 1 < n)]
    simp only [List.length_map, List.length_range]
    rw [Nat.cast_sub (by omega : 1 ≤ n)]
    push_cast
    ring

/-- Concrete instance of `C1_linear_forecast` on the constant-step
series `[10,11,12,13]`: the horizon-1 forecast is the last value plus
twice the step. -/
theorem C1_linear_forecast_witness :
    (linPredict [10, 11, 12, 13] 1).getD 0 0 =
      ([10, 11, 12, 13] : List ℚ).getD (4 - 1) 0 + 2 * 1 := by
  have hdata : ([10, 11, 12, 13] : List ℚ) =
      (List.range 4).map (fun (i : ℕ) => 10 + 1 * (i : ℚ)) := by
    norm_num [List.range_succ]
  exact (C1_linear_forecast [10, 11, 12, 13] 1 (by simp)).2.2 10 1 4
    (by norm_num) hdata (by norm_num)

/-- The weighted-average loop equals the filtered-sum formulation: the
weighted sum over the numeric slots divided by the weight sum of those
same slots, and 0 when no slot is numeric. -/
theorem combine_eq_numericSlots (pMa pEma pLin : Option ℚ) :
    combine pMa pEma pLin =
      if numericSlots pMa pEma pLin = [] then 0
      else ((numericSlots pMa pEma pLin).map (fun q => q.1 * q.2)).sum /
        ((numericSlots pMa pEma pLin).map Prod.snd).sum := by
  rcases pMa with _ | a <;> rcases pEma with _ | b <;> rcases pLin with _ | c <;>
    simp [combine, numericSlots, wMa, wEma, wLin] <;> norm_num
  ring

/-- C5: on a series of length at least 3 the reported ensemble scalar is
the weight-times-value sum over the numeric slots divided by the weight
sum of those same slots (0 when no slot is numeric), rounded to 2
decimals; and whenever some slot is non-numeric the divisor differs from
the nominal weight total `0.30 + 0.35 + 0.35`. -/
theorem C5_ensemble_weighted_average (data : List ℚ) (steps : ℕ)
    (h : 3 ≤ data.length) :
    ((ensemblePredict data steps).ensemble =
      some (round2
        (if numericSlots ((maPredict 5 data steps).head?) ((emaPredict (3/10) data steps).head?)
              ((linPredict data steps).head?) = [] then 0
         else ((numericSlots ((maPredict 5 data steps).head?) ((emaPredict (3/10) data steps).head?)
                  ((linPredict data steps).head?)).map (fun q => q.1 * q.2)).sum /
           ((numericSlots ((maPredict 5 data steps).head?) ((emaPredict (3/10) data steps).head?)
               ((linPredict data steps).head?)).map Prod.snd).sum))) ∧
    (∀ pMa pEma pLin : Option ℚ, pMa = none ∨ pEma = none ∨ pLin = none →
      ((numericSlots pMa pEma pLin).map Prod.snd).sum ≠ wMa + wEma + wLin) := by
  constructor
  · unfold ensemblePredict
    rw [if_neg (by omega)]
    simp only [combine_eq_numericSlots]
  · intro pMa pEma pLin hcase
    rcases pMa with _ | a <;> rcases pEma with _ | b <;> rcases pLin with _ | c <;>
      simp_all [numericSlots, wMa, wEma, wLin] <;> norm_num

/-- Concrete instance of `C5_ensemble_weighted_average`: with
`steps = 0` every slot is non-numeric (Python's `pred[0]` raises on the
empty forecast and the error string is stored), and the ensemble is the
normal result 0. -/
theorem C5_ensemble_weighted_average_witness :
    (ensemblePredict [1, 2, 3] 0).ensemble = some 0 := by
  have h := (C5_ensemble_weighted_average [1, 2, 3] 0 (by norm_num)).1
  rw [h]
  norm_num [numericSlots, maPredict, emaPredict, emaStep, linPredict, round2, pyRound]

/-- C9 fails on the code in one detail: the returned strength is
`round(min(|m|*10, 1.0), 2)`, not `min(|m|*10, 1.0)`.  On
`[10000, 10567]` the mean change is `m = 0.0567 > 0.05`, the claimed
strength is `0.567`, but the code returns `0.57`. -/
theorem C9_strength_counterexample :
    trendAnalyze [10000, 10567] = ⟨"上涨", 57/100⟩ ∧
    min (|(567 : ℚ)/10000 * 10|) 1 = 567/1000 ∧
    ((57 : ℚ)/100) ≠ 567/1000 := by
  refine ⟨?_, by norm_num [abs_of_pos, min_def], by norm_num⟩
  have hpc : pctChanges [(10000 : ℚ), 10567] = [567/10000] := by
    norm_num [pctChanges, List.filterMap_cons, List.filterMap_nil]
  simp only [trendAnalyze, hpc]
  norm_num [round2, pyRound, abs_of_pos, min_def]

/-- C9 amended: with the mean valid percentage change `m`, the analyzer
returns rising (`上涨`) with strength `round2 (min (|m|*10) 1)` when
`m > 0.05`, falling (`下跌`) with the same strength formula when
`m < -0.05`, and oscillating (`震荡`) with strength `0.5` otherwise; a
series shorter than 2, or one with no valid change, yields
unknown with strength 0. -/
theorem C9_trend_classification (data : List ℚ) :
    (data.length < 2 ∨ pctChanges data = [] →
      trendAnalyze data = ⟨"unknown", 0⟩) ∧
    (2 ≤ data.length → pctChanges data ≠ [] →
      ((pctChanges data).sum / ((pctChanges data).length : ℚ) > 1/20 →
        trendAnalyze data = ⟨"上涨",
          round2 (min (|(pctChanges data).sum / ((pctChanges data).length : ℚ)| * 10) 1)⟩) ∧
      ((pctChanges data).sum / ((pctChanges data).length : ℚ) < -(1/20) →
        trendAnalyze data = ⟨"下跌",
          round2 (min (|(pctChanges data).sum / ((pctChanges data).length : ℚ)| * 10) 1)⟩) ∧
      (|(pctChanges data).sum / ((pctChanges data).length : ℚ)| ≤ 1/20 →
        trendAnalyze data = ⟨"震荡", 1/2⟩)) := by
  constructor
  · rintro (h2 | hemp)
    · simp only [trendAnalyze]
      rw [if_pos h2]
    · simp only [trendAnalyze]
      rcases Nat.lt_or_ge data.length 2 with hl | hl
      · rw [if_pos hl]
      · rw [if_neg (by omega)]
        simp [hemp]
  · intro h2 hne
    have hemp : (pctChanges data).isEmpty = false := by
      simp [List.isEmpty_iff, hne]
    refine ⟨fun hm => ?_, fun hm => ?_, fun hm => ?_⟩
    · simp only [trendAnalyze]
      rw [if_neg (by omega), if_neg (by simp [hemp]), if_pos hm]
    · simp only [trendAnalyze]
      rw [if_neg (by omega), if_neg (by simp [hemp]),
        if_neg (by push_neg; linarith), if_pos hm]
    · obtain ⟨hlo, hhi⟩ := abs_le.mp hm
      simp only [trendAnalyze]
      rw [if_neg (by omega), if_neg (by simp [hemp]),
        if_neg (by push_neg; linarith), if_neg (by push_neg; linarith)]
      have hhalf : round2 (1/2) = 1/2 := by norm_num [round2, pyRound]
      rw [hhalf]

/-- Concrete instance of `C9_trend_classification` on the rising series
`[1, 2]`: the single change is `+100%`, so strength caps at 1. -/
theorem C9_trend_classification_witness :
    trendAnalyze [(1 : ℚ), 2] = ⟨"上涨", 1⟩ := by
  have hpc : pctChanges [(1 : ℚ), 2] = [1] := by
    norm_num [pctChanges, List.filterMap_cons, List.filterMap_nil]
  have h := ((C9_trend_classification [(1 : ℚ), 2]).2 (by norm_num)
    (by rw [hpc]; simp)).1 (by rw [hpc]; norm_num)
  rw [h, hpc]
  norm_num [round2, pyRound, abs_of_pos, min_def]

end Predictor
